import Mathlib

/-!
Verification of the kube-local repository.

Part 1 models the literal web application `src/apps/src/index.ts`: an Express
server that loads `config/.env` through `dotenv.config` once at module load,
and serves two routes.  `GET /` renders the seven environment variables
(ConfigMap- and Secret-injected) through `JSON.stringify(envVars, null, 2)`
inside an HTML template; `GET /health` answers a fixed JSON payload.

Part 2 models the configuration-propagation reconciler that the specification
reconstructs (ConfigStore, WorkloadSpec, Reconciler, RolloutExecutor); the
repository has no source for it, so those definitions are modelled from the
spec and are marked as such.
-/

/-- A process environment: a partial map from variable names to values.
`none` models a JavaScript `undefined` lookup on `process.env`. -/
def Env : Type := String → Option String

/-- `process.env.K || 'NOT SET'` from the `/` handler: JavaScript `||`
falls through to `'NOT SET'` both when the variable is `undefined` and when
it is set to the empty string (the only falsy string). -/
def envOr (env : Env) (k : String) : String :=
  match env k with
  | none => "NOT SET"
  | some v => if v = "" then "NOT SET" else v

/-- The `envVars` object literal built inside the `/` handler, in the
source's insertion order. -/
structure EnvVars where
  DATABASE_URL : String
  CACHE_SIZE : String
  PAYMENT_GATEWAY_URL : String
  MAX_CART_ITEMS : String
  SESSION_TIMEOUT : String
  DB_USERNAME : String
  DB_PASSWORD : String
deriving Repr, DecidableEq

/-- The seven environment variable names the `/` handler reads. -/
def sevenEnvKeys : List String :=
  ["DATABASE_URL", "CACHE_SIZE", "PAYMENT_GATEWAY_URL", "MAX_CART_ITEMS",
   "SESSION_TIMEOUT", "DB_USERNAME", "DB_PASSWORD"]

/-- Building the `envVars` object from `process.env`, as the handler does
on each request. -/
def envVarsOf (env : Env) : EnvVars :=
  { DATABASE_URL := envOr env "DATABASE_URL"
    CACHE_SIZE := envOr env "CACHE_SIZE"
    PAYMENT_GATEWAY_URL := envOr env "PAYMENT_GATEWAY_URL"
    MAX_CART_ITEMS := envOr env "MAX_CART_ITEMS"
    SESSION_TIMEOUT := envOr env "SESSION_TIMEOUT"
    DB_USERNAME := envOr env "DB_USERNAME"
    DB_PASSWORD := envOr env "DB_PASSWORD" }

/-- Hexadecimal digit used in `\u00XX` escapes. -/
def hexDigit (n : Nat) : Char :=
  if n < 10 then Char.ofNat (48 + n) else Char.ofNat (87 + n)

/-- JSON string escaping as `JSON.stringify` applies it to each character of
a string value: quote, backslash, the named control escapes, and `\u00XX`
for the remaining control characters; every other character is kept. -/
def jsEscapeChar (c : Char) : List Char :=
  if c = '\x22' then ['\\', '\x22']
  else if c = '\\' then ['\\', '\\']
  else if c = '\x08' then ['\\', 'b']
  else if c = '\x09' then ['\\', 't']
  else if c = '\x0a' then ['\\', 'n']
  else if c = '\x0c' then ['\\', 'f']
  else if c = '\x0d' then ['\\', 'r']
  else if c.toNat < 32 then
    ['\\', 'u', '0', '0', hexDigit (c.toNat / 16), hexDigit (c.toNat % 16)]
  else [c]

/-- JSON escaping of a whole string value. -/
def jsEscape (s : String) : String :=
  String.mk (s.data.flatMap jsEscapeChar)

/-- One `"key": "value"` line of `JSON.stringify(envVars, null, 2)`,
indented by the two-space indent argument. -/
def jsonField (k v : String) : String :=
  "  \x22" ++ (k ++ ("\x22: \x22" ++ (jsEscape v ++ "\x22")))

/-- `JSON.stringify(envVars, null, 2)`: keys in insertion order, one per
line, two-space indent.  (String append is associative; the grouping is
chosen for convenient reasoning and does not change the rendered text.) -/
def jsonStringifyEnvVars (e : EnvVars) : String :=
  "\x7b\n" ++
  (jsonField "DATABASE_URL" e.DATABASE_URL ++ (",\n" ++
  (jsonField "CACHE_SIZE" e.CACHE_SIZE ++ (",\n" ++
  (jsonField "PAYMENT_GATEWAY_URL" e.PAYMENT_GATEWAY_URL ++ (",\n" ++
  (jsonField "MAX_CART_ITEMS" e.MAX_CART_ITEMS ++ (",\n" ++
  (jsonField "SESSION_TIMEOUT" e.SESSION_TIMEOUT ++ (",\n" ++
  (jsonField "DB_USERNAME" e.DB_USERNAME ++ (",\n" ++
  (jsonField "DB_PASSWORD" e.DB_PASSWORD ++ "\n\x7d")))))))))))))

/-- Text of the `/` handler's template literal before the
`JSON.stringify` interpolation point. -/
def htmlBefore : String :=
  "\n    <html>\n      <head><style>\n        body \x7b font-family: monospace; background: #1a1a2e; color: #eee; padding: 2rem; \x7d\n        h1 \x7b color: #00d4ff; \x7d\n        pre \x7b background: #16213e; padding: 1rem; border-radius: 8px; font-size: 1rem; \x7d\n        .label \x7b color: #f39c12; \x7d\n        .value \x7b color: #2ecc71; \x7d\n      </style></head>\n      <body>\n        <h1>🚀 K8s Demo App</h1>\n        <h2>Environment Variables (from ConfigMap + Secrets)</h2>\n        <pre>"

/-- Text of the `/` handler's template literal after the interpolation. -/
def htmlAfter : String :=
  "</pre>\n      </body>\n    </html>\n  "

/-- The body passed to `res.send` by the `/` handler. -/
def rootResponseBody (env : Env) : String :=
  htmlBefore ++ jsonStringifyEnvVars (envVarsOf env) ++ htmlAfter

/-- The payload of `res.json` in the `/health` handler. -/
structure HealthPayload where
  status : String
  timestamp : String
deriving Repr, DecidableEq

/-- The two routes the app registers. -/
inductive Route where
  | root
  | health
deriving Repr, DecidableEq

/-- A response the app can produce: `res.send` of HTML for `/`,
`res.json` for `/health`. -/
inductive AppResponse where
  | html (body : String)
  | json (payload : HealthPayload)
deriving Repr, DecidableEq

/-- Dispatch of one request against the two registered handlers. `env` is
the `process.env` the handlers read; `now` is `new Date().toISOString()`
at handling time. -/
def appHandle (env : Env) (now : String) : Route → AppResponse
  | .root => .html (rootResponseBody env)
  | .health => .json { status := "ok", timestamp := now }

/-- `dotenv.config(\x7b path: config/.env \x7d)` at module load: each key of the
parsed file is copied into `process.env` only when the key is not already
present (dotenv does not override existing variables); `file` stands for the
parsed key-value content of `config/.env`, a missing file being the empty
map. -/
def dotenvConfig (osEnv fileEnv : Env) : Env :=
  fun k => (osEnv k).orElse (fun _ => fileEnv k)

/-- State of the running process and of its surroundings: `captured` is the
`process.env` fixed when the module loaded (OS environment merged with
`config/.env` via `dotenvConfig`); `file` is the current on-disk content of
`config/.env`, which nothing in the app re-reads after startup. -/
structure AppWorld where
  captured : Env
  file : Env

/-- Events after startup: the `.env` file may be rewritten on disk, and
HTTP requests arrive. -/
inductive AppEvent where
  | updateFile (f : Env)
  | request (now : String) (r : Route)

/-- One world step: a file update touches only the disk; a request is
answered from the captured environment (the handlers read `process.env`,
never the file). -/
def appStep (w : AppWorld) : AppEvent → AppWorld × Option AppResponse
  | .updateFile f => ({ w with file := f }, none)
  | .request now r => (w, some (appHandle w.captured now r))

/-- Process startup: `dotenv.config` runs once, capturing the merged
environment. -/
def bootApp (osEnv fileEnv : Env) : AppWorld :=
  { captured := dotenvConfig osEnv fileEnv, file := fileEnv }

/-- The world after a sequence of events. -/
def runWorld (w : AppWorld) (es : List AppEvent) : AppWorld :=
  es.foldl (fun w e => (appStep w e).1) w

/-- Substring containment, used to state what the rendered body contains. -/
def occursIn (sub s : String) : Prop :=
  ∃ pre post, s = pre ++ (sub ++ post)

/-! ## Part 2 — the configuration-propagation reconciler

The repository contains no source for this component: the spec reconstructs
it from the manual `kubectl` walkthrough.  Every definition below is
therefore modelled from the spec (§3–§7), as its doc comment records. -/

/-- Modelled from the spec (§3 ConfigEntry): the entry class, plain or
sensitive; no source exists in the repository. -/
inductive ConfigClass where
  | plain
  | sensitive
deriving Repr, DecidableEq

/-- Modelled from the spec (§3 ConfigEntry): a `data` mapping string→string,
as an association list. -/
abbrev ConfigData : Type := List (String × String)

/-- Modelled from the spec (§3 ConfigEntry): all versions ever written for
one entry name, oldest first; version numbers are the 1-based positions, so
the version counter is monotonic and incremented on every write. -/
structure EntryHistory where
  cls : ConfigClass
  versions : List ConfigData
deriving Repr, DecidableEq

/-- Modelled from the spec (§4.1 ConfigStore): versioned key-value source of
truth for named configuration sets; no source exists in the repository. -/
structure ConfigStore where
  entries : List (String × EntryHistory)
deriving Repr, DecidableEq

/-- First (most recent) history bound to `name`, if any. -/
def ConfigStore.findEntry (s : ConfigStore) (name : String) : Option EntryHistory :=
  (s.entries.find? (fun p => p.1 == name)).map Prod.snd

/-- Whether `name` currently resolves in the store. -/
def ConfigStore.has (s : ConfigStore) (name : String) : Bool :=
  (s.findEntry name).isSome

/-- The versions written so far under `name` (empty if unknown). -/
def ConfigStore.versionsOf (s : ConfigStore) (name : String) : List ConfigData :=
  match s.findEntry name with
  | none => []
  | some h => h.versions

/-- Modelled from the spec (§4.1): `latestVersion(name) -> int`; an unknown
name has no versions, reported as 0. -/
def latestVersion (s : ConfigStore) (name : String) : Nat :=
  (s.versionsOf name).length

/-- Modelled from the spec (§7 taxonomy): the ConfigStore error cases. -/
inductive StoreError where
  | ValidationError
  | NotFoundError
deriving Repr, DecidableEq

/-- Modelled from the spec (§4.1 `put`): a sensitive-class write must pass
the type-specific schema check (`schemaOk`, kept abstract as the spec only
gives an example); any other write always succeeds. -/
def putAccepts (schemaOk : ConfigData → Bool) (cls : ConfigClass)
    (data : ConfigData) : Bool :=
  match cls with
  | .plain => true
  | .sensitive => schemaOk data

/-- Modelled from the spec (§4.1): `put(name, class, data) -> version` writes
a new version and returns the new monotonic version number, or fails with
`ValidationError` on a rejected sensitive write, leaving the store as it
was. -/
def put (schemaOk : ConfigData → Bool) (s : ConfigStore) (name : String)
    (cls : ConfigClass) (data : ConfigData) :
    Except StoreError (ConfigStore × Nat) :=
  if putAccepts schemaOk cls data then
    Except.ok
      (⟨(name, ⟨cls, s.versionsOf name ++ [data]⟩) :: s.entries⟩,
       (s.versionsOf name).length + 1)
  else
    Except.error StoreError.ValidationError

/-- The store state after a `put` call, the failed call leaving it
unchanged. -/
def putStore (schemaOk : ConfigData → Bool) (s : ConfigStore) (name : String)
    (cls : ConfigClass) (data : ConfigData) : ConfigStore :=
  match put schemaOk s name cls data with
  | .error _ => s
  | .ok (s', _) => s'

/-- Modelled from the spec (§4.3 tie-break cases): deletion of a ConfigEntry,
performed by an external actor on the store. -/
def ConfigStore.deleteEntry (s : ConfigStore) (name : String) : ConfigStore :=
  ⟨s.entries.filter (fun p => !(p.1 == name))⟩

/-- `latestVersion` observed after each call of a sequence of `put` calls on
the same entry name. -/
def putObs (schemaOk : ConfigData → Bool) (s : ConfigStore) (name : String) :
    List (ConfigClass × ConfigData) → List Nat
  | [] => []
  | c :: cs =>
    let s' := putStore schemaOk s name c.1 c.2
    latestVersion s' name :: putObs schemaOk s' name cs

/-- Modelled from the spec (§3 WorkloadSpec): injection mode of a config
binding. -/
inductive InjectionMode where
  | environment
  | mountedFile
deriving Repr, DecidableEq

/-- Modelled from the spec (§3 WorkloadSpec): one `{entryName, injectionMode}`
config binding. -/
structure ConfigBinding where
  entryName : String
  injectionMode : InjectionMode
deriving Repr, DecidableEq

/-- Modelled from the spec (§3 WorkloadSpec): desired state for a replica
group; `template` carries no behaviour the claims touch and is omitted. -/
structure WorkloadSpec where
  name : String
  replicaCount : Nat
  configBindings : List ConfigBinding
  minAvailable : Nat
  maxUnavailable : Nat
deriving Repr, DecidableEq

/-- Modelled from the spec (§4.2 `validate`): all bindings resolve,
`minAvailable <= replicaCount`, `maxUnavailable >= 1`. -/
def WorkloadSpec.validate (w : WorkloadSpec) (store : ConfigStore) : Bool :=
  w.configBindings.all (fun b => store.has b.entryName)
    && decide (w.minAvailable ≤ w.replicaCount)
    && decide (1 ≤ w.maxUnavailable)

/-- Modelled from the spec (§4.4): one observed instant of a rollout, as the
counts of replicas per state (`ready` is the number of available replicas). -/
structure ExecObs where
  ready : Nat
  starting : Nat
  terminating : Nat
  failed : Nat
deriving Repr, DecidableEq

/-- Modelled from the spec (§4.4 step 4): default batch size policy — the
largest size satisfying the availability invariants (at most `maxUnavailable`
old replicas taken down per batch), capped at `maxBatch`, never zero. -/
def batchSizeOf (maxBatch maxUnavailable : Nat) : Nat :=
  max 1 (min maxBatch maxUnavailable)

/-- Modelled from the spec (§4.4 plan execution): per-batch
replacement-before-removal.  `o` old replicas are still Ready, `r` new
replicas are Ready, `k` numbers the batch for the readiness probe.  Each
batch emits the observed instants: after creating `c` replacements
(`Starting`), after they all pass readiness (or fail it, aborting the
rollout), and after terminating the replaced old replicas.  `fuel` only
bounds the recursion; each batch retires at least one old replica, so
`fuel = o` runs the plan to completion. -/
def execLoop (b : Nat) (probe : Nat → Bool) :
    Nat → Nat → Nat → Nat → List ExecObs
  | 0, _, _, _ => []
  | _ + 1, _, 0, _ => []
  | fuel + 1, k, o + 1, r =>
    let c := min (max 1 b) (o + 1)
    let s1 : ExecObs := ⟨o + 1 + r, c, 0, 0⟩
    if probe k then
      let s2 : ExecObs := ⟨o + 1 + r + c, 0, 0, 0⟩
      let s3 : ExecObs := ⟨(o + 1 - c) + (r + c), 0, c, 0⟩
      s1 :: s2 :: s3 :: execLoop b probe fuel (k + 1) (o + 1 - c) (r + c)
    else
      [s1, ⟨o + 1 + r, 0, 0, c⟩]

/-- Modelled from the spec (§4.4): the observed instants of one rollout of
`w`, starting from `w.replicaCount` Ready replicas on the old configuration;
`probe` is the supplied external readiness signal, per batch. -/
def execTrace (w : WorkloadSpec) (maxBatch : Nat) (probe : Nat → Bool) :
    List ExecObs :=
  ⟨w.replicaCount, 0, 0, 0⟩ ::
    execLoop (batchSizeOf maxBatch w.maxUnavailable) probe
      w.replicaCount 0 w.replicaCount 0

/-- Modelled from the spec (§3 Replica): replica lifecycle states. -/
inductive ReplicaState where
  | Starting
  | Ready
  | Terminating
  | Failed
deriving Repr, DecidableEq

/-- Modelled from the spec (§3 Replica): one running instance with the
config versions captured at its creation. -/
structure Replica where
  id : Nat
  observedConfigVersions : List (String × Nat)
  state : ReplicaState
deriving Repr, DecidableEq

/-- Modelled from the spec (§3 RolloutRecord): rollout status values. -/
inductive RolloutStatus where
  | InProgress
  | Succeeded
  | Failed
  | RolledBack
deriving Repr, DecidableEq

/-- Modelled from the spec (§3 RolloutRecord): one history entry of a
completed or in-flight rollout. -/
structure RolloutRecord where
  workloadName : String
  fromConfigVersions : List (String × Nat)
  toConfigVersions : List (String × Nat)
  status : RolloutStatus
  timestamp : Nat
deriving Repr, DecidableEq

/-- Modelled from the spec (§7 taxonomy): the error the Reconciler surfaces
when a binding references a deleted or missing entry. -/
inductive ReconcileError where
  | ConfigurationError
deriving Repr, DecidableEq

/-- Modelled from the spec (§4.3 Reconciler): the control-loop state for one
workload.  `history` is the append-only log of resolved records; `current`
is the at-most-one in-flight (`InProgress`) record the executor is
driving. -/
structure ReconcilerState where
  store : ConfigStore
  workload : WorkloadSpec
  replicas : List Replica
  history : List RolloutRecord
  current : Option RolloutRecord
  clock : Nat
deriving Repr, DecidableEq

/-- All RolloutRecords visible at a state: the resolved log plus the
in-flight record. -/
def allRecords (s : ReconcilerState) : List RolloutRecord :=
  s.history ++ s.current.toList

/-- How many of the visible records are `InProgress`. -/
def inProgressCount (s : ReconcilerState) : Nat :=
  ((allRecords s).filter (fun r => r.status == RolloutStatus.InProgress)).length

/-- Version lookup in an entryName→version map. -/
def lookupVersion (m : List (String × Nat)) (k : String) : Option Nat :=
  (m.find? (fun p => p.1 == k)).map Prod.snd

/-- Modelled from the spec (§4.3 step 1): the target version map — for every
environment-mode binding, the entry's current `latestVersion` (file-mode
bindings are reconciled out-of-band, §6). -/
def targetVersionMap (store : ConfigStore) (w : WorkloadSpec) :
    List (String × Nat) :=
  (w.configBindings.filter
      (fun b => b.injectionMode == InjectionMode.environment)).map
    (fun b => (b.entryName, latestVersion store b.entryName))

/-- Modelled from the spec (§4.3 step 2): the version map observed by the
existing replicas, read off the first Ready replica. -/
def observedVersionMap (replicas : List Replica) : List (String × Nat) :=
  match replicas.find? (fun r => r.state == ReplicaState.Ready) with
  | none => []
  | some rep => rep.observedConfigVersions

/-- Modelled from the spec (§4.3 and §9 open question, resolved there as
"any replica running a stale version relative to latest"): drift holds when
some Ready replica observed a version differing from the latest one of an
environment-mode binding. -/
def driftDetected (store : ConfigStore) (w : WorkloadSpec)
    (replicas : List Replica) : Bool :=
  replicas.any (fun rep =>
    rep.state == ReplicaState.Ready
      && w.configBindings.any (fun b =>
        b.injectionMode == InjectionMode.environment
          && !(lookupVersion rep.observedConfigVersions b.entryName
                == some (latestVersion store b.entryName))))

/-- Whether some binding of `w` no longer resolves in the store. -/
def missingBinding (store : ConfigStore) (w : WorkloadSpec) : Bool :=
  w.configBindings.any (fun b => !(store.has b.entryName))

/-- Modelled from the spec (§4.3 steps 1–2 and 5, §4.3 tie-breaks): one run
of drift detection.  Suppressed while a rollout is in flight; a binding to a
deleted entry is a fatal `ConfigurationError` that leaves the state
untouched; otherwise detected drift emits an `InProgress` RolloutRecord
carrying the observed (`from`) and target (`to`) version maps. -/
def reconcileDetect (s : ReconcilerState) :
    ReconcilerState × Option ReconcileError :=
  match s.current with
  | some _ => (s, none)
  | none =>
    if missingBinding s.store s.workload then
      (s, some ReconcileError.ConfigurationError)
    else if driftDetected s.store s.workload s.replicas then
      let rec0 : RolloutRecord :=
        { workloadName := s.workload.name
          fromConfigVersions := observedVersionMap s.replicas
          toConfigVersions := targetVersionMap s.store s.workload
          status := RolloutStatus.InProgress
          timestamp := s.clock }
      ({ s with current := some rec0, clock := s.clock + 1 }, none)
    else
      (s, none)

/-- A fresh Ready replica set bound to the version map `vm`. -/
def mkReadyReplicas (n : Nat) (vm : List (String × Nat)) : List Replica :=
  (List.range n).map (fun i => ⟨i, vm, ReplicaState.Ready⟩)

/-- Modelled from the spec (§4.3 step 4): resolution of the in-flight
rollout.  On executor success the record is marked `Succeeded` and the
replicas now run the target versions; on executor failure the record is
marked `Failed` and automatic rollback issues a new `InProgress` rollout
targeting exactly the failed record's `fromConfigVersions`. -/
def reconcileExec (s : ReconcilerState) (ok : Bool) : ReconcilerState :=
  match s.current with
  | none => s
  | some r =>
    if ok then
      { s with
        replicas := mkReadyReplicas s.workload.replicaCount r.toConfigVersions
        history := s.history ++ [{ r with status := RolloutStatus.Succeeded }]
        current := none
        clock := s.clock + 1 }
    else
      let rollback : RolloutRecord :=
        { workloadName := r.workloadName
          fromConfigVersions := r.toConfigVersions
          toConfigVersions := r.fromConfigVersions
          status := RolloutStatus.InProgress
          timestamp := s.clock }
      { s with
        history := s.history ++ [{ r with status := RolloutStatus.Failed }]
        current := some rollback
        clock := s.clock + 1 }

/-- Events driving the reconciler model: external store writes and
deletions, the fixed-interval drift detection tick, and the executor
reporting the in-flight rollout's outcome. -/
inductive ReconEvent where
  | putEntry (name : String) (cls : ConfigClass) (data : ConfigData)
  | removeEntry (name : String)
  | detect
  | execStep (ok : Bool)

/-- One reconciler transition. -/
def reconStep (schemaOk : ConfigData → Bool) (s : ReconcilerState) :
    ReconEvent → ReconcilerState × Option ReconcileError
  | .putEntry name cls data =>
    ({ s with store := putStore schemaOk s.store name cls data }, none)
  | .removeEntry name => ({ s with store := s.store.deleteEntry name }, none)
  | .detect => reconcileDetect s
  | .execStep ok => (reconcileExec s ok, none)

/-- A freshly started reconciler: no history, no in-flight rollout. -/
def reconInit (store : ConfigStore) (w : WorkloadSpec)
    (replicas : List Replica) : ReconcilerState :=
  { store := store, workload := w, replicas := replicas,
    history := [], current := none, clock := 0 }

/-- The reconciler state after a sequence of events. -/
def reconRun (schemaOk : ConfigData → Bool) (s : ReconcilerState)
    (es : List ReconEvent) : ReconcilerState :=
  es.foldl (fun s e => (reconStep schemaOk s e).1) s

/-! ### Concrete instances used by the witnesses -/

/-- A concrete environment matching the README deployment (ConfigMap
`app-config` plus Secret `app-secret`). -/
def demoEnv : Env := fun k =>
  if k = "DATABASE_URL" then some "postgres://app-db:5432/shop"
  else if k = "CACHE_SIZE" then some "1000"
  else if k = "DB_USERNAME" then some "admin"
  else if k = "DB_PASSWORD" then some "supersecret123"
  else none

/-- The workload of the spec's §8 scenario: 4 replicas, `minAvailable = 3`,
`maxUnavailable = 1`, bound to entry `db` by environment injection. -/
def demoWorkload : WorkloadSpec :=
  { name := "app-deployment", replicaCount := 4,
    configBindings := [⟨"db", InjectionMode.environment⟩],
    minAvailable := 3, maxUnavailable := 1 }

/-- A store holding entry `db` at version 1 with `{user: a}`. -/
def demoStore : ConfigStore :=
  ⟨[("db", ⟨ConfigClass.plain, [[("user", "a")]]⟩)]⟩

/-- An in-flight rollout record moving `db` from version 1 to version 2. -/
def demoRecord : RolloutRecord :=
  { workloadName := "app-deployment", fromConfigVersions := [("db", 1)],
    toConfigVersions := [("db", 2)], status := RolloutStatus.InProgress,
    timestamp := 0 }

/-- A reconciler state with `demoRecord` in flight. -/
def demoRolloutState : ReconcilerState :=
  { store := demoStore, workload := demoWorkload,
    replicas := mkReadyReplicas 4 [("db", 1)],
    history := [], current := some demoRecord, clock := 1 }

/-- An idle reconciler state whose workload binds the deleted entry `db`. -/
def demoMissingState : ReconcilerState :=
  { store := ⟨[]⟩, workload := demoWorkload,
    replicas := mkReadyReplicas 4 [("db", 1)],
    history := [], current := none, clock := 0 }

/-! ### Helper lemmas about substring containment -/

theorem occursIn_self (s : String) : occursIn s s :=
  ⟨"", "", by simp⟩

theorem occursIn_empty (s : String) : occursIn "" s :=
  ⟨"", s, by simp⟩

theorem occursIn_appendL (sub a b : String) (h : occursIn sub a) :
    occursIn sub (a ++ b) := by
  obtain ⟨pre, post, rfl⟩ := h
  exact ⟨pre, post ++ b, by simp [String.append_assoc]⟩

theorem occursIn_appendR (sub a b : String) (h : occursIn sub b) :
    occursIn sub (a ++ b) := by
  obtain ⟨pre, post, rfl⟩ := h
  exact ⟨a ++ pre, post, by simp [String.append_assoc]⟩

theorem occursIn_trans (a b c : String) (hab : occursIn a b) (hbc : occursIn b c) :
    occursIn a c := by
  obtain ⟨p, q, rfl⟩ := hab
  obtain ⟨P, Q, rfl⟩ := hbc
  exact ⟨P ++ p, q ++ Q, by simp [String.append_assoc]⟩

theorem occursIn_field1 (e : EnvVars) :
    occursIn (jsonField "DATABASE_URL" e.DATABASE_URL) (jsonStringifyEnvVars e) :=
  occursIn_appendR _ _ _ (occursIn_appendL _ _ _ (occursIn_self _))

theorem occursIn_field2 (e : EnvVars) :
    occursIn (jsonField "CACHE_SIZE" e.CACHE_SIZE) (jsonStringifyEnvVars e) :=
  occursIn_appendR _ _ _ (occursIn_appendR _ _ _ (occursIn_appendR _ _ _
    (occursIn_appendL _ _ _ (occursIn_self _))))

theorem occursIn_field3 (e : EnvVars) :
    occursIn (jsonField "PAYMENT_GATEWAY_URL" e.PAYMENT_GATEWAY_URL)
      (jsonStringifyEnvVars e) :=
  occursIn_appendR _ _ _ (occursIn_appendR _ _ _ (occursIn_appendR _ _ _
    (occursIn_appendR _ _ _ (occursIn_appendR _ _ _
    (occursIn_appendL _ _ _ (occursIn_self _))))))

theorem occursIn_field4 (e : EnvVars) :
    occursIn (jsonField "MAX_CART_ITEMS" e.MAX_CART_ITEMS) (jsonStringifyEnvVars e) :=
  occursIn_appendR _ _ _ (occursIn_appendR _ _ _ (occursIn_appendR _ _ _
    (occursIn_appendR _ _ _ (occursIn_appendR _ _ _ (occursIn_appendR _ _ _
    (occursIn_appendR _ _ _ (occursIn_appendL _ _ _ (occursIn_self _))))))))

theorem occursIn_field5 (e : EnvVars) :
    occursIn (jsonField "SESSION_TIMEOUT" e.SESSION_TIMEOUT) (jsonStringifyEnvVars e) :=
  occursIn_appendR _ _ _ (occursIn_appendR _ _ _ (occursIn_appendR _ _ _
    (occursIn_appendR _ _ _ (occursIn_appendR _ _ _ (occursIn_appendR _ _ _
    (occursIn_appendR _ _ _ (occursIn_appendR _ _ _ (occursIn_appendR _ _ _
    (occursIn_appendL _ _ _ (occursIn_self _))))))))))

theorem occursIn_field6 (e : EnvVars) :
    occursIn (jsonField "DB_USERNAME" e.DB_USERNAME) (jsonStringifyEnvVars e) :=
  occursIn_appendR _ _ _ (occursIn_appendR _ _ _ (occursIn_appendR _ _ _
    (occursIn_appendR _ _ _ (occursIn_appendR _ _ _ (occursIn_appendR _ _ _
    (occursIn_appendR _ _ _ (occursIn_appendR _ _ _ (occursIn_appendR _ _ _
    (occursIn_appendR _ _ _ (occursIn_appendR _ _ _
    (occursIn_appendL _ _ _ (occursIn_self _))))))))))))

theorem occursIn_field7 (e : EnvVars) :
    occursIn (jsonField "DB_PASSWORD" e.DB_PASSWORD) (jsonStringifyEnvVars e) :=
  occursIn_appendR _ _ _ (occursIn_appendR _ _ _ (occursIn_appendR _ _ _
    (occursIn_appendR _ _ _ (occursIn_appendR _ _ _ (occursIn_appendR _ _ _
    (occursIn_appendR _ _ _ (occursIn_appendR _ _ _ (occursIn_appendR _ _ _
    (occursIn_appendR _ _ _ (occursIn_appendR _ _ _ (occursIn_appendR _ _ _
    (occursIn_appendR _ _ _ (occursIn_appendL _ _ _ (occursIn_self _))))))))))))))

/-- Any substring of the stringified `envVars` is a substring of the full
HTML body. -/
theorem occursIn_body_of_json (env : Env) (sub : String)
    (h : occursIn sub (jsonStringifyEnvVars (envVarsOf env))) :
    occursIn sub (rootResponseBody env) :=
  occursIn_appendL _ _ _ (occursIn_appendR _ _ _ h)

/-- The escaped value is a substring of its own field line. -/
theorem occursIn_value_jsonField (k v : String) :
    occursIn (jsEscape v) (jsonField k v) :=
  occursIn_appendR _ _ _ (occursIn_appendR _ _ _ (occursIn_appendR _ _ _
    (occursIn_appendL _ _ _ (occursIn_self _))))

/-! ### Lemmas about the request/world model -/

/-- The captured `process.env` never changes after startup, whatever happens
to the `.env` file or how many requests are served. -/
theorem runWorld_captured (w : AppWorld) (es : List AppEvent) :
    (runWorld w es).captured = w.captured := by
  induction es generalizing w with
  | nil => rfl
  | cons e es ih =>
    have h1 : runWorld w (e :: es) = runWorld ((appStep w e).1) es := rfl
    rw [h1, ih]
    cases e <;> rfl

theorem envOr_congr (env₁ env₂ : Env) (k : String) (h : env₁ k = env₂ k) :
    envOr env₁ k = envOr env₂ k := by
  unfold envOr
  rw [h]

/-- When variable `k` is set to the nonempty string `v`, the handler renders
it as `v` itself. -/
theorem envOr_of_some (env : Env) (k v : String) (hv : env k = some v)
    (h0 : v ≠ "") : envOr env k = v := by
  unfold envOr
  rw [hv]
  simp [h0]

/-- Core containment fact shared by the echoing claims: a set variable whose
value needs no JSON escaping appears verbatim in the rendered body. -/
theorem rootBody_value_aux (env : Env) (k v : String) (hk : k ∈ sevenEnvKeys)
    (hv : env k = some v) (hesc : jsEscape v = v) :
    occursIn v (rootResponseBody env) := by
  by_cases h0 : v = ""
  · subst h0
    exact occursIn_empty _
  · have hval : envOr env k = v := envOr_of_some env k v hv h0
    simp only [sevenEnvKeys, List.mem_cons, List.not_mem_nil, or_false] at hk
    rcases hk with rfl | rfl | rfl | rfl | rfl | rfl | rfl
    · apply occursIn_body_of_json
      apply occursIn_trans _ _ _ _ (occursIn_field1 (envVarsOf env))
      have h2 := occursIn_value_jsonField "DATABASE_URL" v
      rw [hesc] at h2
      show occursIn v (jsonField "DATABASE_URL" (envOr env "DATABASE_URL"))
      rw [hval]
      exact h2
    · apply occursIn_body_of_json
      apply occursIn_trans _ _ _ _ (occursIn_field2 (envVarsOf env))
      have h2 := occursIn_value_jsonField "CACHE_SIZE" v
      rw [hesc] at h2
      show occursIn v (jsonField "CACHE_SIZE" (envOr env "CACHE_SIZE"))
      rw [hval]
      exact h2
    · apply occursIn_body_of_json
      apply occursIn_trans _ _ _ _ (occursIn_field3 (envVarsOf env))
      have h2 := occursIn_value_jsonField "PAYMENT_GATEWAY_URL" v
      rw [hesc] at h2
      show occursIn v (jsonField "PAYMENT_GATEWAY_URL" (envOr env "PAYMENT_GATEWAY_URL"))
      rw [hval]
      exact h2
    · apply occursIn_body_of_json
      apply occursIn_trans _ _ _ _ (occursIn_field4 (envVarsOf env))
      have h2 := occursIn_value_jsonField "MAX_CART_ITEMS" v
      rw [hesc] at h2
      show occursIn v (jsonField "MAX_CART_ITEMS" (envOr env "MAX_CART_ITEMS"))
      rw [hval]
      exact h2
    · apply occursIn_body_of_json
      apply occursIn_trans _ _ _ _ (occursIn_field5 (envVarsOf env))
      have h2 := occursIn_value_jsonField "SESSION_TIMEOUT" v
      rw [hesc] at h2
      show occursIn v (jsonField "SESSION_TIMEOUT" (envOr env "SESSION_TIMEOUT"))
      rw [hval]
      exact h2
    · apply occursIn_body_of_json
      apply occursIn_trans _ _ _ _ (occursIn_field6 (envVarsOf env))
      have h2 := occursIn_value_jsonField "DB_USERNAME" v
      rw [hesc] at h2
      show occursIn v (jsonField "DB_USERNAME" (envOr env "DB_USERNAME"))
      rw [hval]
      exact h2
    · apply occursIn_body_of_json
      apply occursIn_trans _ _ _ _ (occursIn_field7 (envVarsOf env))
      have h2 := occursIn_value_jsonField "DB_PASSWORD" v
      rw [hesc] at h2
      show occursIn v (jsonField "DB_PASSWORD" (envOr env "DB_PASSWORD"))
      rw [hval]
      exact h2

/-! ### Claims about the literal application -/

/-- C1: the literal app reads its process-wide environment variables once at
startup (`dotenv.config` at module load); for every later GET `/` request —
whatever happened to the `config/.env` file in between — the rendered values
are those captured at startup, never re-read at request time. -/
theorem c1_rootResponse_usesStartupCapture (osEnv fileEnv : Env)
    (es : List AppEvent) (now : String) :
    (appStep (runWorld (bootApp osEnv fileEnv) es) (AppEvent.request now Route.root)).2
      = some (AppResponse.html (rootResponseBody (dotenvConfig osEnv fileEnv))) := by
  have h := runWorld_captured (bootApp osEnv fileEnv) es
  show some (appHandle (runWorld (bootApp osEnv fileEnv) es).captured now Route.root) = _
  rw [h]
  rfl

/-- C2: for every GET `/` request, the response body contains the current
value of each of the seven variables the handler reads (for values that JSON
rendering keeps verbatim, i.e. needing no string escaping; an empty value is
rendered as `NOT SET` but is trivially a substring). -/
theorem c2_rootBody_echoes_envValues (env : Env) (k v : String)
    (hk : k ∈ sevenEnvKeys) (hv : env k = some v) (hesc : jsEscape v = v) :
    occursIn v (rootResponseBody env) :=
  rootBody_value_aux env k v hk hv hesc

/-- Witness for C2 at the README deployment values. -/
theorem c2_witness : occursIn "supersecret123" (rootResponseBody demoEnv) :=
  c2_rootBody_echoes_envValues demoEnv "DB_PASSWORD" "supersecret123"
    (by simp [sevenEnvKeys]) (by rfl) (by rfl)

/-- C8: the `/` handler is total over all environments: it always answers
with the rendered HTML body, that body always carries a line for each of the
seven keys (none is omitted), and every unset variable is rendered as the
string `NOT SET`. -/
theorem c8_rootHandler_total_notSet (env : Env) (now : String) :
    appHandle env now Route.root = AppResponse.html (rootResponseBody env)
    ∧ (∀ k, k ∈ sevenEnvKeys →
        occursIn (jsonField k (envOr env k)) (rootResponseBody env))
    ∧ (∀ k, k ∈ sevenEnvKeys → env k = none →
        occursIn (jsonField k "NOT SET") (rootResponseBody env)) := by
  refine ⟨rfl, ?_, ?_⟩
  · intro k hk
    simp only [sevenEnvKeys, List.mem_cons, List.not_mem_nil, or_false] at hk
    rcases hk with rfl | rfl | rfl | rfl | rfl | rfl | rfl
    · exact occursIn_body_of_json env _ (occursIn_field1 (envVarsOf env))
    · exact occursIn_body_of_json env _ (occursIn_field2 (envVarsOf env))
    · exact occursIn_body_of_json env _ (occursIn_field3 (envVarsOf env))
    · exact occursIn_body_of_json env _ (occursIn_field4 (envVarsOf env))
    · exact occursIn_body_of_json env _ (occursIn_field5 (envVarsOf env))
    · exact occursIn_body_of_json env _ (occursIn_field6 (envVarsOf env))
    · exact occursIn_body_of_json env _ (occursIn_field7 (envVarsOf env))
  · intro k hk hnone
    have hns : envOr env k = "NOT SET" := by
      unfold envOr
      rw [hnone]
    rw [← hns]
    simp only [sevenEnvKeys, List.mem_cons, List.not_mem_nil, or_false] at hk
    rcases hk with rfl | rfl | rfl | rfl | rfl | rfl | rfl
    · exact occursIn_body_of_json env _ (occursIn_field1 (envVarsOf env))
    · exact occursIn_body_of_json env _ (occursIn_field2 (envVarsOf env))
    · exact occursIn_body_of_json env _ (occursIn_field3 (envVarsOf env))
    · exact occursIn_body_of_json env _ (occursIn_field4 (envVarsOf env))
    · exact occursIn_body_of_json env _ (occursIn_field5 (envVarsOf env))
    · exact occursIn_body_of_json env _ (occursIn_field6 (envVarsOf env))
    · exact occursIn_body_of_json env _ (occursIn_field7 (envVarsOf env))

/-- Witness for C8 on the fully-unset environment. -/
theorem c8_witness :
    occursIn (jsonField "DATABASE_URL" "NOT SET") (rootResponseBody (fun _ => none)) :=
  (c8_rootHandler_total_notSet (fun _ => none) "2026-10-12T00:00:00.000Z").2.2
    "DATABASE_URL" (by simp [sevenEnvKeys]) rfl

/-- C9: the `/health` handler answers a JSON object whose `status` field is
`"ok"` for every environment and every request time; it never reflects
configuration state. -/
theorem c9_health_always_ok (env : Env) (now : String) :
    appHandle env now Route.health
      = AppResponse.json { status := "ok", timestamp := now } := rfl

/-- C10: the `/` body is a function of exactly the seven read variables —
two environments agreeing on them yield identical bodies — and the sensitive
values `DB_USERNAME` and `DB_PASSWORD` appear verbatim in the body served to
any client (verbatim up to JSON string escaping, which leaves these values
unchanged when they contain no escaped characters). -/
theorem c10_rootBody_noninterference_and_secretLeak :
    (∀ env₁ env₂ : Env, (∀ k, k ∈ sevenEnvKeys → env₁ k = env₂ k) →
        rootResponseBody env₁ = rootResponseBody env₂)
    ∧ (∀ (env : Env) (u : String), env "DB_USERNAME" = some u → jsEscape u = u →
        occursIn u (rootResponseBody env))
    ∧ (∀ (env : Env) (p : String), env "DB_PASSWORD" = some p → jsEscape p = p →
        occursIn p (rootResponseBody env)) := by
  refine ⟨?_, ?_, ?_⟩
  · intro env₁ env₂ h
    have h1 := envOr_congr env₁ env₂ "DATABASE_URL" (h _ (by simp [sevenEnvKeys]))
    have h2 := envOr_congr env₁ env₂ "CACHE_SIZE" (h _ (by simp [sevenEnvKeys]))
    have h3 := envOr_congr env₁ env₂ "PAYMENT_GATEWAY_URL" (h _ (by simp [sevenEnvKeys]))
    have h4 := envOr_congr env₁ env₂ "MAX_CART_ITEMS" (h _ (by simp [sevenEnvKeys]))
    have h5 := envOr_congr env₁ env₂ "SESSION_TIMEOUT" (h _ (by simp [sevenEnvKeys]))
    have h6 := envOr_congr env₁ env₂ "DB_USERNAME" (h _ (by simp [sevenEnvKeys]))
    have h7 := envOr_congr env₁ env₂ "DB_PASSWORD" (h _ (by simp [sevenEnvKeys]))
    have he : envVarsOf env₁ = envVarsOf env₂ := by
      unfold envVarsOf
      rw [h1, h2, h3, h4, h5, h6, h7]
    unfold rootResponseBody
    rw [he]
  · intro env u hu hesc
    exact rootBody_value_aux env "DB_USERNAME" u (by simp [sevenEnvKeys]) hu hesc
  · intro env p hp hesc
    exact rootBody_value_aux env "DB_PASSWORD" p (by simp [sevenEnvKeys]) hp hesc

/-- Witness for C10 at the README deployment values. -/
theorem c10_witness : occursIn "admin" (rootResponseBody demoEnv) :=
  c10_rootBody_noninterference_and_secretLeak.2.1 demoEnv "admin" (by rfl) (by rfl)

/-! ### ConfigStore lemmas -/

theorem findEntry_cons_self (name : String) (h : EntryHistory)
    (rest : List (String × EntryHistory)) :
    ConfigStore.findEntry ⟨(name, h) :: rest⟩ name = some h := by
  simp [ConfigStore.findEntry, List.find?]

theorem latestVersion_putStore_accept (schemaOk : ConfigData → Bool)
    (s : ConfigStore) (name : String) (cls : ConfigClass) (data : ConfigData)
    (h : putAccepts schemaOk cls data = true) :
    latestVersion (putStore schemaOk s name cls data) name
      = latestVersion s name + 1 := by
  unfold putStore put
  rw [if_pos h]
  simp [latestVersion, ConfigStore.versionsOf, findEntry_cons_self]

theorem putStore_reject (schemaOk : ConfigData → Bool) (s : ConfigStore)
    (name : String) (cls : ConfigClass) (data : ConfigData)
    (h : putAccepts schemaOk cls data = false) :
    putStore schemaOk s name cls data = s := by
  unfold putStore put
  rw [if_neg (by simp [h])]

theorem latestVersion_putStore_le (schemaOk : ConfigData → Bool)
    (s : ConfigStore) (name : String) (cls : ConfigClass) (data : ConfigData) :
    latestVersion s name
      ≤ latestVersion (putStore schemaOk s name cls data) name := by
  cases hacc : putAccepts schemaOk cls data with
  | false => rw [putStore_reject schemaOk s name cls data hacc]
  | true => rw [latestVersion_putStore_accept schemaOk s name cls data hacc]; omega

/-- C3: for every sequence of `put` calls on the same entry name, the
`latestVersion` observations never decrease; each accepted `put` increments
them by exactly one and returns the new version, so across any sequence of
successful calls the observations are strictly increasing. -/
theorem c3_latestVersion_monotone (schemaOk : ConfigData → Bool) :
    (∀ (s : ConfigStore) (name : String) (cls : ConfigClass) (data : ConfigData)
        (s' : ConfigStore) (v : Nat),
        put schemaOk s name cls data = Except.ok (s', v) →
        latestVersion s' name = latestVersion s name + 1
          ∧ v = latestVersion s name + 1)
    ∧ (∀ (s : ConfigStore) (name : String) (cls : ConfigClass) (data : ConfigData),
        latestVersion s name
          ≤ latestVersion (putStore schemaOk s name cls data) name)
    ∧ (∀ (s : ConfigStore) (name : String) (cs : List (ConfigClass × ConfigData)),
        List.Chain' (· ≤ ·) (latestVersion s name :: putObs schemaOk s name cs))
    ∧ (∀ (s : ConfigStore) (name : String) (cs : List (ConfigClass × ConfigData)),
        (∀ c ∈ cs, putAccepts schemaOk c.1 c.2 = true) →
        List.Chain' (· < ·) (latestVersion s name :: putObs schemaOk s name cs)) := by
  refine ⟨?_, latestVersion_putStore_le schemaOk, ?_, ?_⟩
  · intro s name cls data s' v hput
    unfold put at hput
    by_cases hacc : putAccepts schemaOk cls data = true
    · rw [if_pos hacc] at hput
      have hs' : s' = ⟨(name, ⟨cls, s.versionsOf name ++ [data]⟩) :: s.entries⟩ ∧
          v = (s.versionsOf name).length + 1 := by
        constructor
        · exact (Prod.mk.injEq _ _ _ _ ▸ (Except.ok.inj hput)).1.symm
        · exact (Prod.mk.injEq _ _ _ _ ▸ (Except.ok.inj hput)).2.symm
      obtain ⟨h1, h2⟩ := hs'
      subst h1
      constructor
      · simp [latestVersion, ConfigStore.versionsOf, findEntry_cons_self]
      · exact h2
    · rw [if_neg hacc] at hput
      exact absurd hput (by simp)
  · intro s name cs
    induction cs generalizing s with
    | nil => simp [putObs]
    | cons c cs ih =>
      simp only [putObs]
      rw [List.chain'_cons]
      exact ⟨latestVersion_putStore_le schemaOk s name c.1 c.2, ih _⟩
  · intro s name cs hall
    induction cs generalizing s with
    | nil => simp [putObs]
    | cons c cs ih =>
      simp only [putObs]
      rw [List.chain'_cons]
      constructor
      · rw [latestVersion_putStore_accept schemaOk s name c.1 c.2
          (hall c (List.mem_cons_self c cs))]
        omega
      · exact ih _ (fun c' hc' => hall c' (List.mem_cons_of_mem c hc'))

/-! ### RolloutExecutor lemmas -/

/-- At every instant the executor emits, the available count is at least the
sum of old-and-still-Ready and new-Ready replicas it started the batch
with. -/
theorem execLoop_ready_ge (b : Nat) (probe : Nat → Bool) :
    ∀ (fuel k o r : Nat), ∀ s ∈ execLoop b probe fuel k o r, o + r ≤ s.ready := by
  intro fuel
  induction fuel with
  | zero =>
    intro k o r s hs
    simp [execLoop] at hs
  | succ fuel ih =>
    intro k o r s hs
    rcases o with _ | o
    · simp [execLoop] at hs
    · rw [execLoop] at hs
      have hc1 : 1 ≤ min (max 1 b) (o + 1) := by
        have h1 : 1 ≤ max 1 b := Nat.le_max_left 1 b
        omega
      have hc2 : min (max 1 b) (o + 1) ≤ o + 1 := Nat.min_le_right _ _
      by_cases hp : probe k
      · simp only [hp, if_true, List.mem_cons, List.not_mem_nil, or_false] at hs
        rcases hs with rfl | rfl | rfl | hs
        · simp
        · simp only [ExecObs.ready]
          omega
        · simp only [ExecObs.ready]
          omega
        · have h := ih (k + 1) (o + 1 - min (max 1 b) (o + 1))
            (r + min (max 1 b) (o + 1)) s hs
          omega
      · rw [if_neg hp] at hs
        simp only [List.mem_cons, List.not_mem_nil, or_false] at hs
        rcases hs with rfl | rfl
        · simp
        · simp

/-- C4: for every rollout the executor performs on a validated WorkloadSpec
and at every observed instant of it, the available replica count stays at or
above `minAvailable` whenever `replicaCount ≠ 1` (the single-replica case is
the spec's documented availability gap; the replacement-before-removal model
in fact maintains the bound there too). -/
theorem c4_rollout_maintains_minAvailable (w : WorkloadSpec)
    (store : ConfigStore) (maxBatch : Nat) (probe : Nat → Bool)
    (hval : w.validate store = true) :
    ∀ s ∈ execTrace w maxBatch probe,
      w.replicaCount ≠ 1 → w.minAvailable ≤ s.ready := by
  have hmin : w.minAvailable ≤ w.replicaCount := by
    unfold WorkloadSpec.validate at hval
    simp only [Bool.and_eq_true, decide_eq_true_eq] at hval
    exact hval.1.2
  intro s hs _
  rcases List.mem_cons.mp hs with rfl | hs
  · simpa using hmin
  · have h := execLoop_ready_ge (batchSizeOf maxBatch w.maxUnavailable) probe
      w.replicaCount 0 w.replicaCount 0 s hs
    omega

/-- Witness for C4 on the spec's §8 scenario workload. -/
theorem c4_witness :
    demoWorkload.validate demoStore = true
      ∧ demoWorkload.minAvailable ≤ (ExecObs.mk 4 0 0 0).ready :=
  ⟨by decide,
   c4_rollout_maintains_minAvailable demoWorkload demoStore 2 (fun _ => true)
     (by decide) (ExecObs.mk 4 0 0 0) (List.mem_cons_self _ _) (by decide)⟩

/-! ### Reconciler lemmas -/

/-- Every record in the resolved history has left the `InProgress` state. -/
def historyResolved (s : ReconcilerState) : Prop :=
  ∀ r ∈ s.history, r.status ≠ RolloutStatus.InProgress

theorem reconcileDetect_history (s : ReconcilerState) :
    (reconcileDetect s).1.history = s.history := by
  unfold reconcileDetect
  cases s.current with
  | some r => rfl
  | none =>
    by_cases hm : missingBinding s.store s.workload = true
    · rw [if_pos hm]
    · rw [if_neg hm]
      by_cases hd : driftDetected s.store s.workload s.replicas = true
      · rw [if_pos hd]
      · rw [if_neg hd]

theorem historyResolved_step (schemaOk : ConfigData → Bool)
    (s : ReconcilerState) (e : ReconEvent) (h : historyResolved s) :
    historyResolved (reconStep schemaOk s e).1 := by
  cases e with
  | putEntry name cls data => exact h
  | removeEntry name => exact h
  | detect =>
    intro r hr
    have hr' : r ∈ (reconcileDetect s).1.history := hr
    rw [reconcileDetect_history s] at hr'
    exact h r hr'
  | execStep ok =>
    show historyResolved (reconcileExec s ok)
    unfold reconcileExec
    cases s.current with
    | none => exact h
    | some r =>
      cases ok with
      | true =>
        intro r' hr'
        rcases List.mem_append.mp hr' with hold | hnew
        · exact h r' hold
        · rw [List.mem_singleton.mp hnew]
          simp
      | false =>
        intro r' hr'
        rcases List.mem_append.mp hr' with hold | hnew
        · exact h r' hold
        · rw [List.mem_singleton.mp hnew]
          simp

theorem inProgressCount_le_one (s : ReconcilerState)
    (h : historyResolved s) : inProgressCount s ≤ 1 := by
  unfold inProgressCount allRecords
  rw [List.filter_append, List.length_append]
  have h1 : s.history.filter (fun r => r.status == RolloutStatus.InProgress) = [] := by
    rw [List.filter_eq_nil_iff]
    intro r hr
    simpa using h r hr
  rw [h1]
  simp only [List.length_nil, Nat.zero_add]
  cases s.current with
  | none => simp
  | some r =>
    have h2 := List.length_filter_le
      (fun x => x.status == RolloutStatus.InProgress) [r]
    simpa using h2

/-- C5: at no reachable state of the Reconciler are two rollouts
simultaneously `InProgress` for the workload — drift detection is suppressed
while one is in flight, so the visible records (history plus in-flight)
never hold more than one `InProgress` entry. -/
theorem c5_at_most_one_inProgress (schemaOk : ConfigData → Bool)
    (store : ConfigStore) (w : WorkloadSpec) (replicas : List Replica)
    (es : List ReconEvent) :
    inProgressCount (reconRun schemaOk (reconInit store w replicas) es) ≤ 1 := by
  apply inProgressCount_le_one
  have hrun : ∀ (es : List ReconEvent) (s : ReconcilerState),
      historyResolved s → historyResolved (reconRun schemaOk s es) := by
    intro es
    induction es with
    | nil => intro s h; exact h
    | cons e es ih =>
      intro s h
      exact ih _ (historyResolved_step schemaOk s e h)
  apply hrun
  intro r hr
  simp [reconInit] at hr

/-- C6: when the in-flight rollout fails, the automatic rollback rollout
targets exactly the `fromConfigVersions` map recorded in the RolloutRecord
at rollout start — and completing that rollback leaves every replica on
precisely that map, never any other. -/
theorem c6_rollback_restores_fromConfigVersions (s : ReconcilerState)
    (r : RolloutRecord) (hcur : s.current = some r) :
    ∃ rollback : RolloutRecord,
      (reconcileExec s false).current = some rollback
        ∧ rollback.toConfigVersions = r.fromConfigVersions
        ∧ rollback.status = RolloutStatus.InProgress
        ∧ (reconcileExec (reconcileExec s false) true).replicas
          = mkReadyReplicas s.workload.replicaCount r.fromConfigVersions := by
  refine ⟨{ workloadName := r.workloadName
            fromConfigVersions := r.toConfigVersions
            toConfigVersions := r.fromConfigVersions
            status := RolloutStatus.InProgress
            timestamp := s.clock }, ?_, rfl, rfl, ?_⟩
  · unfold reconcileExec
    rw [hcur]
    rfl
  · unfold reconcileExec
    rw [hcur]
    rfl

/-- Witness for C6 on the §8 failing-rollout scenario. -/
theorem c6_witness :
    ∃ rollback : RolloutRecord,
      (reconcileExec demoRolloutState false).current = some rollback
        ∧ rollback.toConfigVersions = demoRecord.fromConfigVersions
        ∧ rollback.status = RolloutStatus.InProgress
        ∧ (reconcileExec (reconcileExec demoRolloutState false) true).replicas
          = mkReadyReplicas demoRolloutState.workload.replicaCount
              demoRecord.fromConfigVersions :=
  c6_rollback_restores_fromConfigVersions demoRolloutState demoRecord rfl

/-- C7: a drift-detection run on a workload bound to a deleted ConfigEntry
raises `ConfigurationError` and leaves the state atomically unchanged — no
replica is created, terminated, or transitioned, and the history gains no
record. -/
theorem c7_deleted_entry_configurationError (s : ReconcilerState)
    (hidle : s.current = none)
    (hmiss : missingBinding s.store s.workload = true) :
    reconcileDetect s = (s, some ReconcileError.ConfigurationError)
      ∧ (reconcileDetect s).1.replicas = s.replicas
      ∧ (reconcileDetect s).1.history = s.history := by
  have h : reconcileDetect s = (s, some ReconcileError.ConfigurationError) := by
    unfold reconcileDetect
    rw [hidle, if_pos hmiss]
  exact ⟨h, by rw [h], by rw [h]⟩

/-- Witness for C7: entry `db` deleted while still bound. -/
theorem c7_witness :
    reconcileDetect demoMissingState
      = (demoMissingState, some ReconcileError.ConfigurationError) :=
  (c7_deleted_entry_configurationError demoMissingState rfl (by decide)).1

/-- Witness for C3: a successful `put` of `db` version 2 strictly increases
the observations. -/
theorem c3_witness :
    List.Chain' (· < ·)
      (latestVersion demoStore "db" ::
        putObs (fun _ => true) demoStore "db"
          [(ConfigClass.plain, [("user", "b")])]) :=
  (c3_latestVersion_monotone (fun _ => true)).2.2.2 demoStore "db"
    [(ConfigClass.plain, [("user", "b")])] (by decide)
